import Mathlib

/-!
Verification of the KiiChain RWA on-chain identity and claims engine.

The development embeds, as executable Lean definitions, the identity
contract's claim management operations (`add_claim`, `remove_claim`,
`verify_claim_signature`, `verify_claim`, `generate_claim_id`), the
claim-topics registry (`add_claim_topic`, `remove_claim_topic`,
`is_claim_topic_valid`, `check_role`, `execute`), and the SHA-256 /
hex / base64 primitives those operations call, and proves the stated
properties of the specification about them.

Bytes are modelled as `Nat` values below 256, 32-bit machine words as
`Nat` reduced by `% 2 ^ 32` (written through `w32`), addresses as
strings, and the host key-value store as a function from addresses to
optional records.  Fallible operations return `Except`.
-/

namespace RWA

/-! ## SHA-256 over byte lists (the `sha2` crate's `Sha256`) -/

/-- Truncation of a `Nat` to a 32-bit machine word. -/
def w32 (x : Nat) : Nat := x % 4294967296

/-- 32-bit right rotation. -/
def rotr (n x : Nat) : Nat := w32 ((x >>> n) ||| (x <<< (32 - n)))

/-- SHA-256 Σ₀. -/
def bigS0 (x : Nat) : Nat := rotr 2 x ^^^ rotr 13 x ^^^ rotr 22 x

/-- SHA-256 Σ₁. -/
def bigS1 (x : Nat) : Nat := rotr 6 x ^^^ rotr 11 x ^^^ rotr 25 x

/-- SHA-256 σ₀. -/
def smallS0 (x : Nat) : Nat := rotr 7 x ^^^ rotr 18 x ^^^ (x >>> 3)

/-- SHA-256 σ₁. -/
def smallS1 (x : Nat) : Nat := rotr 17 x ^^^ rotr 19 x ^^^ (x >>> 10)

/-- SHA-256 Ch: `(e AND f) XOR ((NOT e) AND g)` on 32-bit words. -/
def chFn (e f g : Nat) : Nat := (e &&& f) ^^^ ((4294967295 ^^^ e) &&& g)

/-- SHA-256 Maj. -/
def majFn (a b c : Nat) : Nat := (a &&& b) ^^^ (a &&& c) ^^^ (b &&& c)

/-- SHA-256 initial hash state. -/
def sha256H0 : List Nat :=
  [1779033703, 3144134277, 1013904242, 2773480762,
   1359893119, 2600822924, 528734635, 1541459225]

/-- SHA-256 round constants. -/
def sha256K : List Nat :=
  [1116352408, 1899447441, 3049323471, 3921009573, 961987163,
   1508970993, 2453635748, 2870763221, 3624381080, 310598401,
   607225278, 1426881987, 1925078388, 2162078206, 2614888103,
   3248222580, 3835390401, 4022224774, 264347078, 604807628,
   770255983, 1249150122, 1555081692, 1996064986, 2554220882,
   2821834349, 2952996808, 3210313671, 3336571891, 3584528711,
   113926993, 338241895, 666307205, 773529912, 1294757372,
   1396182291, 1695183700, 1986661051, 2177026350, 2456956037,
   2730485921, 2820302411, 3259730800, 3345764771, 3516065817,
   3600352804, 4094571909, 275423344, 430227734, 506948616,
   659060556, 883997877, 958139571, 1322822218, 1537002063,
   1747873779, 1955562222, 2024104815, 2227730452, 2361852424,
   2428436474, 2756734187, 3204031479, 3329325298]

/-- First `n` words of the message schedule of one block `m`. -/
def msgSchedule (m : Nat → Nat) : Nat → List Nat
  | 0 => []
  | n + 1 =>
    let prev := msgSchedule m n
    let g := fun i => prev.getD i 0
    let wn :=
      if n < 16 then w32 (m n)
      else w32 (smallS1 (g (n - 2)) + g (n - 7) + smallS0 (g (n - 15)) + g (n - 16))
    prev ++ [wn]

/-- The eight 32-bit working registers of the compression loop. -/
structure Sha256Regs where
  ra : Nat
  rb : Nat
  rc : Nat
  rd : Nat
  re : Nat
  rf : Nat
  rg : Nat
  rh : Nat

/-- One SHA-256 round applied to the working registers. -/
def sha256Round (st : Sha256Regs) (kw : Nat × Nat) : Sha256Regs :=
  let t1 := w32 (st.rh + bigS1 st.re + chFn st.re st.rf st.rg + kw.1 + kw.2)
  let t2 := w32 (bigS0 st.ra + majFn st.ra st.rb st.rc)
  ⟨w32 (t1 + t2), st.ra, st.rb, st.rc, w32 (st.rd + t1), st.re, st.rf, st.rg⟩

/-- Compression of one 16-word block `m` into the running hash `H`. -/
def sha256Compress (H : List Nat) (m : Nat → Nat) : List Nat :=
  let ws := msgSchedule m 64
  let st0 : Sha256Regs :=
    ⟨H.getD 0 0, H.getD 1 0, H.getD 2 0, H.getD 3 0,
     H.getD 4 0, H.getD 5 0, H.getD 6 0, H.getD 7 0⟩
  let st := (sha256K.zip ws).foldl sha256Round st0
  [w32 (st0.ra + st.ra), w32 (st0.rb + st.rb), w32 (st0.rc + st.rc),
   w32 (st0.rd + st.rd), w32 (st0.re + st.re), w32 (st0.rf + st.rf),
   w32 (st0.rg + st.rg), w32 (st0.rh + st.rh)]

/-- Big-endian 8-byte encoding of a length in bits. -/
def be64 (n : Nat) : List Nat :=
  [(n >>> 56) &&& 255, (n >>> 48) &&& 255, (n >>> 40) &&& 255, (n >>> 32) &&& 255,
   (n >>> 24) &&& 255, (n >>> 16) &&& 255, (n >>> 8) &&& 255, n &&& 255]

/-- Big-endian 4-byte encoding of a 32-bit word. -/
def be32 (n : Nat) : List Nat :=
  [(n >>> 24) &&& 255, (n >>> 16) &&& 255, (n >>> 8) &&& 255, n &&& 255]

/-- Merkle–Damgård padding: `0x80`, zeros to 56 mod 64, 64-bit bit length. -/
def sha256Pad (msg : List Nat) : List Nat :=
  msg ++ 0x80 :: (List.replicate ((64 + 55 - msg.length % 64) % 64) 0 ++ be64 (8 * msg.length))

/-- The `i`-th big-endian 32-bit word of a byte list. -/
def beWordAt (bs : List Nat) (i : Nat) : Nat :=
  (((bs.getD (4 * i) 0 <<< 8 ||| bs.getD (4 * i + 1) 0) <<< 8 |||
     bs.getD (4 * i + 2) 0) <<< 8) ||| bs.getD (4 * i + 3) 0

/-- SHA-256 digest of a byte list, as a list of 32 bytes. -/
def sha256 (msg : List Nat) : List Nat :=
  let padded := sha256Pad msg
  let nBlocks := padded.length / 64
  let hh := (List.range nBlocks).foldl
    (fun H i => sha256Compress H (fun j => beWordAt padded (16 * i + j))) sha256H0
  hh.flatMap be32

/-! ## Streaming interface of `sha2::Sha256` (`new` / `update` / `finalize`) -/

/-- The incremental hasher state: the bytes fed so far. -/
structure Sha256Hasher where
  acc : List Nat

/-- `Sha256::new()`. -/
def Sha256Hasher.new : Sha256Hasher := ⟨[]⟩

/-- `hasher.update(bytes)`: absorbs further input. -/
def Sha256Hasher.update (h : Sha256Hasher) (bs : List Nat) : Sha256Hasher :=
  ⟨h.acc ++ bs⟩

/-- `hasher.finalize()`: digest of everything absorbed. -/
def Sha256Hasher.finalize (h : Sha256Hasher) : List Nat := sha256 h.acc

/-! ## Text encodings: UTF-8 (`str::as_bytes`), lowercase hex (`hex::encode`),
base64 (`serde_json` rendering of cosmwasm `Binary`) -/

/-- UTF-8 encoding of one Unicode code point. -/
def utf8Char (c : Nat) : List Nat :=
  if c < 0x80 then [c]
  else if c < 0x800 then
    [0xC0 ||| (c >>> 6), 0x80 ||| (c &&& 0x3F)]
  else if c < 0x10000 then
    [0xE0 ||| (c >>> 12), 0x80 ||| ((c >>> 6) &&& 0x3F), 0x80 ||| (c &&& 0x3F)]
  else
    [0xF0 ||| (c >>> 18), 0x80 ||| ((c >>> 12) &&& 0x3F),
     0x80 ||| ((c >>> 6) &&& 0x3F), 0x80 ||| (c &&& 0x3F)]

/-- The UTF-8 bytes of a string (Rust `as_bytes`). -/
def strBytes (s : String) : List Nat :=
  s.data.flatMap fun ch => utf8Char ch.toNat

/-- Lowercase hexadecimal digits. -/
def hexDigits : List Char := "0123456789abcdef".data

/-- `hex::encode`: lowercase hex of a byte list. -/
def hexEncode (bs : List Nat) : String :=
  String.mk (bs.flatMap fun b => [hexDigits.getD (b / 16 % 16) '0', hexDigits.getD (b % 16) '0'])

/-- The standard base64 alphabet. -/
def b64Digits : List Char :=
  "ABCDEFGHIJKLMNOPQRSTUVWXYZabcdefghijklmnopqrstuvwxyz0123456789+/".data

/-- The four base64 characters of the `i`-th three-byte group. -/
def b64Chunk (bs : List Nat) (i : Nat) : List Char :=
  let rest := bs.length - 3 * i
  let b0 := bs.getD (3 * i) 0
  let b1 := bs.getD (3 * i + 1) 0
  let b2 := bs.getD (3 * i + 2) 0
  [b64Digits.getD (b0 >>> 2) 'A',
   b64Digits.getD (((b0 &&& 3) <<< 4) ||| (b1 >>> 4)) 'A',
   if 2 ≤ rest then b64Digits.getD (((b1 &&& 15) <<< 2) ||| (b2 >>> 6)) 'A' else '=',
   if 3 ≤ rest then b64Digits.getD (b2 &&& 63) 'A' else '=']

/-- Standard padded base64 encoding of a byte list. -/
def base64Encode (bs : List Nat) : String :=
  String.mk (((List.range ((bs.length + 2) / 3)).map (b64Chunk bs)).flatten)

/-! ## Data model of the identity contract (`on_chain_id`) -/

/-- Account addresses (`cosmwasm_std::Addr`), modelled as strings. -/
abbrev Addr := String

/-- `KeyType` from `state.rs`: the four key capability variants. -/
inductive KeyType where
  | managementKey
  | executionKey
  | claimSignerKey
  | encryptionKey
deriving DecidableEq, Repr

/-- `Key` from `state.rs`: a capability entry held by `owner`. -/
structure Key where
  owner : Addr
  key_type : KeyType
deriving DecidableEq, Repr

/-- Claim topics: `Uint128` integer codes, modelled as `Nat`. -/
abbrev ClaimTopic := Nat

/-- Modelled from the spec: the `Claim` struct of the `IDENTITY`-map variant of
the identity contract (its `state` module is not among the provided sources;
`claim_management.rs` reads and writes the fields `id`, `topic`, `issuer`,
`signature`, `data`, `uri`).  Spec §3: `id` is an optional derived hash set on
acceptance; `signature`, `data` are byte strings; `uri` a string. -/
structure Claim where
  id : Option String
  topic : ClaimTopic
  issuer : Addr
  signature : List Nat
  data : List Nat
  uri : String
deriving DecidableEq, Repr

/-- Modelled from the spec: the per-address `Identity` record stored in the
`IDENTITY` map (spec §3: `{ address, keys, claims }`); the `state` module
declaring it is not among the provided sources. -/
structure Identity where
  address : Addr
  keys : List Key
  claims : List Claim
deriving DecidableEq, Repr

/-- Modelled from the spec: the identity contract's `ContractError` taxonomy
(spec §7); its `error` module is not among the provided sources.  `std` wraps
the host storage/serialization errors surfaced through `?`. -/
inductive ContractError where
  | std (msg : String)
  | unauthorized
  | keyAlreadyExists
  | claimAlreadyExists
  | serializationError
  | invalidIssuerSignature
deriving DecidableEq, Repr

/-- The `IDENTITY : Map<&Addr, Identity>` store, one record per address. -/
abbrev Storage := Addr → Option Identity

/-- `IDENTITY.load(storage, addr)`: fails with a host storage error when no
record exists under `addr`. -/
def loadIdentity (s : Storage) (a : Addr) : Except ContractError Identity :=
  match s a with
  | some idn => Except.ok idn
  | none => Except.error (ContractError.std "identity not found")

/-- `IDENTITY.save(storage, addr, identity)`. -/
def saveIdentity (s : Storage) (a : Addr) (idn : Identity) : Storage :=
  fun x => if x = a then some idn else s x

/-- `MessageInfo`: the caller identity supplied by the host (`info.sender`). -/
structure MessageInfo where
  sender : Addr

/-- Response attributes (`Response::add_attribute` pairs). -/
abbrev Response := List (String × String)

/-- The host secp256k1 collaborator `deps.api.secp256k1_verify`, taking the
message digest, the signature bytes and the public-key bytes (spec §6:
`verify(message_digest, signature, public_key) -> Result<bool, VerifyError>`). -/
abbrev Secp256k1Verify := List Nat → List Nat → List Nat → Except String Bool

/-- Modelled from the spec: `check_key_authorization` lives in the repository's
`utils` module, which is not among the provided sources.  Spec §4.1: look up
the caller's keys as recorded against the target identity's key set and fail
with `Unauthorized` when no `(caller, required_key_type)` entry exists. -/
def check_key_authorization (s : Storage) (sender : Addr) (kt : KeyType) :
    Except ContractError Unit :=
  match s sender with
  | some idn =>
      if idn.keys.any (fun k => k.owner == sender && k.key_type == kt) then Except.ok ()
      else Except.error ContractError.unauthorized
  | none => Except.error ContractError.unauthorized

/-- Modelled from the spec: `serde_json::to_vec(claim)`, the claim's serialized
form hashed by `verify_claim_signature`.  Field order follows the spec's data
model (§3); `Uint128` topics render as decimal strings, byte strings as
base64, the optional `id` as `null` or a string (spec §4.2: the serialized
form includes the caller-supplied `signature` field). -/
def serializeClaim (c : Claim) : List Nat :=
  strBytes ("\x7b\"id\":" ++
    (match c.id with
     | none => "null"
     | some s => "\"" ++ s ++ "\"") ++
    ",\"topic\":\"" ++ toString c.topic ++
    "\",\"issuer\":\"" ++ c.issuer ++
    "\",\"signature\":\"" ++ base64Encode c.signature ++
    "\",\"data\":\"" ++ base64Encode c.data ++
    "\",\"uri\":\"" ++ c.uri ++ "\"\x7d")

/-! ## `claim_management.rs` -/

/-- `verify_claim_signature` (`claim_management.rs:57`): load the issuer's
identity, find a `ClaimSignerKey`, hash the serialized claim with SHA-256 and
check the supplied signature against that digest through the host secp256k1
collaborator, treating the signer key's `owner` bytes as the public key. -/
def verify_claim_signature (s : Storage) (api : Secp256k1Verify) (claim : Claim)
    (signature : List Nat) : Except ContractError Unit :=
  match loadIdentity s claim.issuer with
  | Except.error e => Except.error e
  | Except.ok issuer_identity =>
    match issuer_identity.keys.find? (fun k => k.key_type == KeyType.claimSignerKey) with
    | none => Except.error ContractError.unauthorized
    | some claim_signer_key =>
      let claim_data := serializeClaim claim
      let message_hash := sha256 claim_data
      let public_key := strBytes claim_signer_key.owner
      match api message_hash signature public_key with
      | Except.error _ => Except.error ContractError.invalidIssuerSignature
      | Except.ok valid =>
        if valid then Except.ok () else Except.error ContractError.invalidIssuerSignature

/-- `generate_claim_id` (`claim_management.rs:104`): feed the topic's decimal
string, the issuer's address bytes, the signature bytes, the data bytes and
the uri string through one SHA-256 hasher and store the lowercase hex digest
in the claim's `id` field. -/
def generate_claim_id (claim : Claim) : Claim :=
  let hasher := Sha256Hasher.new
  let hasher := hasher.update (strBytes (toString claim.topic))
  let hasher := hasher.update (strBytes claim.issuer)
  let hasher := hasher.update claim.signature
  let hasher := hasher.update claim.data
  let hasher := hasher.update (strBytes claim.uri)
  let claim_id := hexEncode hasher.finalize
  { claim with id := some claim_id }

/-- `add_claim` (`claim_management.rs:7`): management-key gate, issuer
signature verification, claim-ID derivation, duplicate check, append, save. -/
def add_claim (s : Storage) (api : Secp256k1Verify) (info : MessageInfo)
    (claim : Claim) (issuer_signature : List Nat) :
    Except ContractError (Storage × Response) :=
  match check_key_authorization s info.sender KeyType.managementKey with
  | Except.error e => Except.error e
  | Except.ok _ =>
    match verify_claim_signature s api claim issuer_signature with
    | Except.error e => Except.error e
    | Except.ok _ =>
      match loadIdentity s info.sender with
      | Except.error e => Except.error e
      | Except.ok identity =>
        let claim := generate_claim_id claim
        if identity.claims.any (fun c => c.id == claim.id) then
          Except.error ContractError.claimAlreadyExists
        else
          let identity := { identity with claims := identity.claims ++ [claim] }
          Except.ok (saveIdentity s info.sender identity,
            [("method", "add_claim"), ("claim_id", claim.id.getD "")])

/-- `remove_claim` (`claim_management.rs:37`): management-key gate, then retain
every claim whose `id` differs from `claim_id`, then save. -/
def remove_claim (s : Storage) (info : MessageInfo) (claim_id : String) :
    Except ContractError (Storage × Response) :=
  match check_key_authorization s info.sender KeyType.managementKey with
  | Except.error e => Except.error e
  | Except.ok _ =>
    match loadIdentity s info.sender with
    | Except.error e => Except.error e
    | Except.ok identity =>
      let identity := { identity with
        claims := identity.claims.filter (fun c => c.id != some claim_id) }
      Except.ok (saveIdentity s info.sender identity,
        [("method", "remove_claim"), ("claim_id", claim_id)])

/-- The early-returning `for` loop of `verify_claim` (`claim_management.rs:93`):
`true` on the first claim carrying the topic, `false` past the end. -/
def firstTopicMatch : List Claim → ClaimTopic → Bool
  | [], _ => false
  | c :: rest, t => if c.topic == t then true else firstTopicMatch rest t

/-- `verify_claim` (`claim_management.rs:86`): pure read over the identity's
stored claims; no signature re-validation. -/
def verify_claim (s : Storage) (identity : Addr) (claim_topic : ClaimTopic) :
    Except ContractError Bool :=
  match loadIdentity s identity with
  | Except.error e => Except.error e
  | Except.ok idn => Except.ok (firstTopicMatch idn.claims claim_topic)

/-- Modelled from the spec: `execute_add_key` lives in the repository's
`key_management` module, which is not among the provided sources.  Spec §4.3:
management-key gate, reject a duplicate `(owner, key_type)` pair with
`KeyAlreadyExists`, otherwise append and persist. -/
def execute_add_key (s : Storage) (info : MessageInfo) (key_owner : Addr)
    (kt : KeyType) : Except ContractError (Storage × Response) :=
  match check_key_authorization s info.sender KeyType.managementKey with
  | Except.error e => Except.error e
  | Except.ok _ =>
    match loadIdentity s info.sender with
    | Except.error e => Except.error e
    | Except.ok identity =>
      if identity.keys.any (fun k => k.owner == key_owner && k.key_type == kt) then
        Except.error ContractError.keyAlreadyExists
      else
        let identity := { identity with keys := identity.keys ++ [⟨key_owner, kt⟩] }
        Except.ok (saveIdentity s info.sender identity, [("method", "add_key")])

/-- Modelled from the spec: `execute_remove_key` lives in the repository's
`key_management` module, which is not among the provided sources.  Spec §4.3:
management-key gate, then retain all non-matching keys (absence is a no-op). -/
def execute_remove_key (s : Storage) (info : MessageInfo) (key_owner : Addr)
    (kt : KeyType) : Except ContractError (Storage × Response) :=
  match check_key_authorization s info.sender KeyType.managementKey with
  | Except.error e => Except.error e
  | Except.ok _ =>
    match loadIdentity s info.sender with
    | Except.error e => Except.error e
    | Except.ok identity =>
      let identity := { identity with
        keys := identity.keys.filter (fun k => !(k.owner == key_owner && k.key_type == kt)) }
      Except.ok (saveIdentity s info.sender identity, [("method", "remove_key")])

/-- The host's transactional semantics (spec §5): a returned error aborts the
transaction and commits nothing, success commits the returned store. -/
def applyResult (s : Storage) (r : Except ContractError (Storage × Response)) : Storage :=
  match r with
  | Except.ok p => p.1
  | Except.error _ => s

/-! ## The `KEYS`/`CLAIMS`-map draft variant (`contract.rs`, `state.rs`) -/

/-- The `Claim` struct of the provided `state.rs` (no `id` field). -/
structure StateClaim where
  topic : Nat
  issuer : Addr
  signature : List Nat
  data : List Nat
  uri : String
deriving DecidableEq, Repr

namespace IdQuery

/-- The `CLAIMS : Map<&Addr, Vec<Claim>>` store of `state.rs`. -/
abbrev ClaimsStorage := Addr → Option (List StateClaim)

/-- `verify_claim` (`contract.rs:173`): load the user's claim list (an absent
record is a query error) and report whether any stored claim carries the
queried topic.  Host-side address validation is the excluded collaborator. -/
def verify_claim (claims : ClaimsStorage) (claim_id : Nat) (user_addr : Addr) :
    Except String Bool :=
  match claims user_addr with
  | none => Except.error "User has no claims"
  | some cs => Except.ok (cs.any (fun claim => claim.topic == claim_id))

end IdQuery

/-! ## Claim Topics Registry (`registery/src/claim_topics/contract.rs`) -/

namespace ClaimTopics

/-- Modelled from the spec: the `OwnerRole` enum of the external `roles` crate
(not among the provided sources); only `ClaimRegistryManager` is consulted by
the registry (spec §4.4). -/
inductive OwnerRole where
  | claimRegistryManager
deriving DecidableEq, Repr

/-- Modelled from the spec: the registry's `ContractError` (its `error` module
is not among the provided sources); spec §7 taxonomy restricted to the
variants the registry raises.  Per spec §4.4, a failed role query maps to
`Unauthorized`, so the `?` conversion of that query's error lands there. -/
inductive ContractError where
  | std (msg : String)
  | unauthorized
  | claimTopicsExists
  | claimTopicsNotFound
deriving DecidableEq, Repr

/-- Registry state: the stored `OWNER_ROLES_ADDRESS` item and the set of keys
of the `CLAIM_TOPICS : Map<u128, bool>` map. -/
structure TopicsState where
  owner_roles_address : Addr
  topics : List Nat

/-- `CLAIM_TOPICS.has`. -/
def hasTopic (st : TopicsState) (t : Nat) : Bool := st.topics.contains t

/-- The external Owner Roles collaborator, queried with the stored contract
address and an `IsOwner { role, owner }` message (spec §6). -/
abbrev RoleQuerier := Addr → OwnerRole → Addr → Except String Bool

/-- `check_role` (`contract.rs:64`): query the Owner Roles service; a `false`
answer raises `Unauthorized`, and per spec §4.4 a failed query does too. -/
def check_role (st : TopicsState) (q : RoleQuerier) (owner : Addr) (role : OwnerRole) :
    Except ContractError Unit :=
  match q st.owner_roles_address role owner with
  | Except.error _ => Except.error ContractError.unauthorized
  | Except.ok has_role =>
    if has_role then Except.ok () else Except.error ContractError.unauthorized

/-- `add_claim_topic` (`contract.rs:79`): reject a present topic with
`ClaimTopicsExists`, otherwise mark it valid. -/
def add_claim_topic (st : TopicsState) (claim_topic : Nat) :
    Except ContractError (TopicsState × Response) :=
  if hasTopic st claim_topic then Except.error ContractError.claimTopicsExists
  else Except.ok ({ st with topics := claim_topic :: st.topics },
    [("action", "add_claim_topic")])

/-- `remove_claim_topic` (`contract.rs:88`): reject an absent topic with
`ClaimTopicsNotFound`, otherwise remove it. -/
def remove_claim_topic (st : TopicsState) (claim_topic : Nat) :
    Except ContractError (TopicsState × Response) :=
  if !hasTopic st claim_topic then Except.error ContractError.claimTopicsNotFound
  else Except.ok ({ st with topics := st.topics.filter (fun t => t != claim_topic) },
    [("action", "remove_claim_topic")])

/-- `is_claim_topic_valid` (`contract.rs:106`): pure membership read. -/
def is_claim_topic_valid (st : TopicsState) (topic : Nat) : Bool :=
  hasTopic st topic

/-- The registry's `ExecuteMsg`. -/
inductive ExecuteMsg where
  | addClaimTopic (topic : Nat)
  | removeClaimTopic (topic : Nat)
deriving DecidableEq, Repr

/-- `execute` (`contract.rs:32`): role check first, then dispatch. -/
def execute (st : TopicsState) (q : RoleQuerier) (info : MessageInfo)
    (msg : ExecuteMsg) : Except ContractError (TopicsState × Response) :=
  match check_role st q info.sender OwnerRole.claimRegistryManager with
  | Except.error e => Except.error e
  | Except.ok _ =>
    match msg with
    | ExecuteMsg.addClaimTopic topic => add_claim_topic st topic
    | ExecuteMsg.removeClaimTopic topic => remove_claim_topic st topic

/-- Transactional commit of a registry call (spec §5): errors commit nothing. -/
def applyExec (st : TopicsState)
    (r : Except ContractError (TopicsState × Response)) : TopicsState :=
  match r with
  | Except.ok p => p.1
  | Except.error _ => st

end ClaimTopics

/-! ## Specification-level predicates -/

/-- The Key Authority predicate (spec §4.1), as a boolean: the identity record
stored under `a` carries a `(a, kt)` key entry. -/
def holds_key (s : Storage) (a : Addr) (kt : KeyType) : Bool :=
  match s a with
  | some idn => idn.keys.any (fun k => k.owner == a && k.key_type == kt)
  | none => false

/-- The content fingerprint of a claim (spec §4.2): lowercase hex of the
SHA-256 digest of topic string, issuer bytes, signature bytes, data bytes and
uri string, in that order; independent of the claim's `id` field. -/
def claimContentId (c : Claim) : String :=
  hexEncode (sha256 (strBytes (toString c.topic) ++ strBytes c.issuer ++
    c.signature ++ c.data ++ strBytes c.uri))

/-- The claim list stored under an address (empty when no record exists). -/
def claimsOf (s : Storage) (a : Addr) : List Claim :=
  match s a with
  | some idn => idn.claims
  | none => []

/-- Invariant of the identity store: every stored claim's `id` is the derived
content fingerprint of its own fields. -/
def goodStorage (s : Storage) : Prop :=
  ∀ a idn, s a = some idn → ∀ cl ∈ idn.claims, cl.id = some (claimContentId cl)

/-! ## Concrete fixtures used by the witnesses -/

/-- A caller with no identity record (hence no `ManagementKey`): both mutating
claim calls are rejected with `Unauthorized`. -/
def noMgmtStorage : Storage := fun _ => none

/-- A host verifier accepting every signature. -/
def anyApi : Secp256k1Verify := fun _ _ _ => Except.ok true

/-- A sample claim used by the concrete witnesses. -/
def sampleClaim : Claim :=
  { id := none, topic := 1, issuer := "issuer1", signature := [1, 2],
    data := [3], uri := "https://example.com" }

/-- An issuer identity record that carries no `ClaimSignerKey`. -/
def issuerNoSignerStorage : Storage := fun a =>
  if a = "issuer1" then
    some { address := "issuer1", keys := [⟨"issuer1", KeyType.managementKey⟩], claims := [] }
  else none

/-- A role service answering `false` for every account. -/
def denyQuerier : ClaimTopics.RoleQuerier := fun _ _ _ => Except.ok false

/-- A role service whose query fails. -/
def failQuerier : ClaimTopics.RoleQuerier := fun _ _ _ => Except.error "query failed"

/-- A registry state with topic `5` registered. -/
def topicsState5 : ClaimTopics.TopicsState := ⟨"owner_roles_contract", [5]⟩

/-- An identity for `alice` holding her own management and signer keys. -/
def aliceIdentity : Identity :=
  { address := "alice",
    keys := [⟨"alice", KeyType.managementKey⟩, ⟨"alice", KeyType.claimSignerKey⟩],
    claims := [] }

/-- A store with exactly alice's identity. -/
def aliceStorage : Storage := fun a => if a = "alice" then some aliceIdentity else none

/-- An identity for `carol` carrying one claim with topic `5`. -/
def carolIdentity : Identity :=
  { address := "carol", keys := [⟨"carol", KeyType.managementKey⟩],
    claims := [{ id := some "someid", topic := 5, issuer := "issuer1",
                 signature := [], data := [], uri := "" }] }

/-- The `IDENTITY`-map store for carol. -/
def carolStorage : Storage := fun a => if a = "carol" then some carolIdentity else none

/-- The `CLAIMS`-map store for carol in the draft variant. -/
def carolClaims : IdQuery.ClaimsStorage := fun a =>
  if a = "carol" then some [⟨5, "issuer1", [], [], ""⟩] else none

/-- A claim issued by alice about herself, used for the resubmission witness. -/
def w4Claim : Claim :=
  { id := none, topic := 2, issuer := "alice", signature := [4], data := [5], uri := "u" }

/-- The outcome of alice's first `add_claim` call. -/
def w4Res : Except ContractError (Storage × Response) :=
  add_claim aliceStorage anyApi ⟨"alice"⟩ w4Claim [6]

/-- The store committed by alice's first `add_claim` call. -/
def w4s : Storage := applyResult aliceStorage w4Res

/-- The response of alice's first `add_claim` call. -/
def w4r : Response :=
  match w4Res with
  | Except.ok p => p.2
  | Except.error _ => []

/-- The first claim of the counterexample: no caller-supplied id. -/
def cexClaim1 : Claim :=
  { id := none, topic := 1, issuer := "a", signature := [1], data := [], uri := "" }

/-- The second claim: identical `(topic, issuer, signature, data, uri)`, but a
different caller-supplied `id`, which changes the serialized form that is
hashed and signature-checked. -/
def cexClaim2 : Claim := { cexClaim1 with id := some "x" }

/-- The identity of `a`, holding a management and a claim-signer key. -/
def cexIdentityA : Identity :=
  { address := "a",
    keys := [⟨"a", KeyType.managementKey⟩, ⟨"a", KeyType.claimSignerKey⟩],
    claims := [] }

/-- The store of the counterexample. -/
def cexStorage : Storage := fun a => if a = "a" then some cexIdentityA else none

/-- A discriminating verifier: accepts exactly the digest of the first claim's
serialized form (the behavior of a real secp256k1 verifier for a signature
produced over that digest). -/
def cexApi : Secp256k1Verify := fun d _ _ =>
  Except.ok (d == sha256 (serializeClaim cexClaim1))

/-! ## Helper lemmas -/

theorem check_key_authorization_eq_ok {s : Storage} {a : Addr} {kt : KeyType}
    (h : holds_key s a kt = true) :
    check_key_authorization s a kt = Except.ok () := by
  unfold check_key_authorization
  unfold holds_key at h
  cases hsa : s a with
  | none => rw [hsa] at h; cases h
  | some idn =>
    rw [hsa] at h
    have h' : idn.keys.any (fun k => k.owner == a && k.key_type == kt) = true := h
    simp [h']

theorem check_key_authorization_eq_error {s : Storage} {a : Addr} {kt : KeyType}
    (h : holds_key s a kt = false) :
    check_key_authorization s a kt = Except.error ContractError.unauthorized := by
  unfold check_key_authorization
  unfold holds_key at h
  cases hsa : s a with
  | none => rfl
  | some idn =>
    rw [hsa] at h
    have h' : idn.keys.any (fun k => k.owner == a && k.key_type == kt) = false := h
    simp [h']

theorem generate_claim_id_spec (c : Claim) :
    generate_claim_id c = { c with id := some (claimContentId c) } := rfl

theorem claimContentId_congr {c c' : Claim} (ht : c.topic = c'.topic)
    (hi : c.issuer = c'.issuer) (hsg : c.signature = c'.signature)
    (hd : c.data = c'.data) (hu : c.uri = c'.uri) :
    claimContentId c = claimContentId c' := by
  unfold claimContentId
  rw [ht, hi, hsg, hd, hu]

/-! ## The claims, settled -/

/-- C1: for every identity and caller, an `AddClaim` or `RemoveClaim` call from
an account that holds no `ManagementKey` on that identity fails with
`Unauthorized` and leaves the identity's stored keys and claims unchanged. -/
theorem claim_C1 (s : Storage) (api : Secp256k1Verify) (info : MessageInfo)
    (c : Claim) (sig : List Nat) (cid : String)
    (h : holds_key s info.sender KeyType.managementKey = false) :
    add_claim s api info c sig = Except.error ContractError.unauthorized ∧
    applyResult s (add_claim s api info c sig) = s ∧
    remove_claim s info cid = Except.error ContractError.unauthorized ∧
    applyResult s (remove_claim s info cid) = s := by
  have hc := check_key_authorization_eq_error h
  refine ⟨?_, ?_, ?_, ?_⟩ <;>
    simp [add_claim, remove_claim, applyResult, hc]

theorem claim_C1_witness :
    holds_key noMgmtStorage "bob" KeyType.managementKey = false ∧
    add_claim noMgmtStorage anyApi ⟨"bob"⟩ sampleClaim [7] =
      Except.error ContractError.unauthorized ∧
    remove_claim noMgmtStorage ⟨"bob"⟩ "someid" =
      Except.error ContractError.unauthorized :=
  ⟨rfl,
   (claim_C1 noMgmtStorage anyApi ⟨"bob"⟩ sampleClaim [7] "someid" rfl).1,
   (claim_C1 noMgmtStorage anyApi ⟨"bob"⟩ sampleClaim [7] "someid" rfl).2.2.1⟩

/-- C2: `verify_claim_signature` fails with `Unauthorized` when the issuer's
identity record holds no `ClaimSignerKey`; otherwise the message checked
against the host verifier is the SHA-256 digest of the claim's serialized form
(signature field included), and a verifier error or a `false` answer both
yield `InvalidIssuerSignature`.  The function returns no storage, so it has no
side effects by construction. -/
theorem claim_C2 (s : Storage) (api : Secp256k1Verify) (c : Claim)
    (sig : List Nat) (idn : Identity) (hload : s c.issuer = some idn) :
    (idn.keys.any (fun k => k.key_type == KeyType.claimSignerKey) = false →
      verify_claim_signature s api c sig = Except.error ContractError.unauthorized) ∧
    (∀ k, idn.keys.find? (fun k => k.key_type == KeyType.claimSignerKey) = some k →
      verify_claim_signature s api c sig =
        match api (sha256 (serializeClaim c)) sig (strBytes k.owner) with
        | Except.error _ => Except.error ContractError.invalidIssuerSignature
        | Except.ok true => Except.ok ()
        | Except.ok false => Except.error ContractError.invalidIssuerSignature) := by
  constructor
  · intro h
    have hfind : idn.keys.find? (fun k => k.key_type == KeyType.claimSignerKey) = none := by
      rw [List.find?_eq_none]
      intro x hx
      simp only [List.any_eq_false] at h
      simp [h x hx]
    simp [verify_claim_signature, loadIdentity, hload, hfind]
  · intro k hk
    simp only [verify_claim_signature, loadIdentity, hload, hk]
    cases api (sha256 (serializeClaim c)) sig (strBytes k.owner) with
    | error e => rfl
    | ok b => cases b <;> rfl

theorem claim_C2_witness :
    verify_claim_signature issuerNoSignerStorage anyApi sampleClaim [7] =
      Except.error ContractError.unauthorized :=
  (claim_C2 issuerNoSignerStorage anyApi sampleClaim [7]
    { address := "issuer1", keys := [⟨"issuer1", KeyType.managementKey⟩], claims := [] }
    rfl).1 rfl

/-- C3: the derived claim ID is the lowercase hex SHA-256 digest of topic
decimal string, issuer bytes, signature bytes, data bytes and uri string, in
that order; the derivation is deterministic in those five fields, and any
caller-supplied `id` is overwritten without affecting the result. -/
theorem claim_C3 (c c' : Claim) (ht : c.topic = c'.topic)
    (hi : c.issuer = c'.issuer) (hsg : c.signature = c'.signature)
    (hd : c.data = c'.data) (hu : c.uri = c'.uri) :
    (generate_claim_id c).id =
      some (hexEncode (sha256 (strBytes (toString c.topic) ++ strBytes c.issuer ++
        c.signature ++ c.data ++ strBytes c.uri))) ∧
    (generate_claim_id c).id = (generate_claim_id c').id ∧
    ∀ oldId : Option String, generate_claim_id { c with id := oldId } = generate_claim_id c := by
  refine ⟨rfl, ?_, ?_⟩
  · rw [generate_claim_id_spec, generate_claim_id_spec]
    simp [claimContentId_congr ht hi hsg hd hu]
  · intro oldId
    rfl

theorem claim_C3_witness :
    generate_claim_id { sampleClaim with id := some "caller-supplied" } =
      generate_claim_id sampleClaim :=
  (claim_C3 sampleClaim sampleClaim rfl rfl rfl rfl rfl).2.2 (some "caller-supplied")

/-- C5: every mutating registry call first queries the Owner Roles service
with `(caller, ClaimRegistryManager)`; a `false` or failed result makes the
call fail with `Unauthorized` before any change to the topic set. -/
theorem claim_C5 (st : ClaimTopics.TopicsState) (q : ClaimTopics.RoleQuerier)
    (info : MessageInfo) (msg : ClaimTopics.ExecuteMsg) :
    (q st.owner_roles_address ClaimTopics.OwnerRole.claimRegistryManager info.sender =
        Except.ok false →
      ClaimTopics.execute st q info msg =
        Except.error ClaimTopics.ContractError.unauthorized ∧
      ClaimTopics.applyExec st (ClaimTopics.execute st q info msg) = st) ∧
    (∀ e, q st.owner_roles_address ClaimTopics.OwnerRole.claimRegistryManager info.sender =
        Except.error e →
      ClaimTopics.execute st q info msg =
        Except.error ClaimTopics.ContractError.unauthorized ∧
      ClaimTopics.applyExec st (ClaimTopics.execute st q info msg) = st) := by
  constructor
  · intro hq
    have he : ClaimTopics.execute st q info msg =
        Except.error ClaimTopics.ContractError.unauthorized := by
      simp [ClaimTopics.execute, ClaimTopics.check_role, hq]
    exact ⟨he, by rw [he]; rfl⟩
  · intro e hq
    have he : ClaimTopics.execute st q info msg =
        Except.error ClaimTopics.ContractError.unauthorized := by
      simp [ClaimTopics.execute, ClaimTopics.check_role, hq]
    exact ⟨he, by rw [he]; rfl⟩

theorem claim_C5_witness :
    ClaimTopics.execute topicsState5 denyQuerier ⟨"alice"⟩
        (ClaimTopics.ExecuteMsg.addClaimTopic 9) =
      Except.error ClaimTopics.ContractError.unauthorized ∧
    ClaimTopics.execute topicsState5 failQuerier ⟨"alice"⟩
        (ClaimTopics.ExecuteMsg.removeClaimTopic 5) =
      Except.error ClaimTopics.ContractError.unauthorized ∧
    ClaimTopics.applyExec topicsState5
        (ClaimTopics.execute topicsState5 failQuerier ⟨"alice"⟩
          (ClaimTopics.ExecuteMsg.removeClaimTopic 5)) = topicsState5 :=
  ⟨((claim_C5 topicsState5 denyQuerier ⟨"alice"⟩
      (ClaimTopics.ExecuteMsg.addClaimTopic 9)).1 rfl).1,
   ((claim_C5 topicsState5 failQuerier ⟨"alice"⟩
      (ClaimTopics.ExecuteMsg.removeClaimTopic 5)).2 "query failed" rfl).1,
   ((claim_C5 topicsState5 failQuerier ⟨"alice"⟩
      (ClaimTopics.ExecuteMsg.removeClaimTopic 5)).2 "query failed" rfl).2⟩

/-- C6: after a successful `add_claim_topic T`, `is_claim_topic_valid T` is
`true`; after a successful `remove_claim_topic T` it is `false`; adding a
present topic fails with `ClaimTopicsExists`, removing an absent one with
`ClaimTopicsNotFound`. -/
theorem claim_C6 (st : ClaimTopics.TopicsState) (t : Nat) :
    (ClaimTopics.hasTopic st t = false →
      (ClaimTopics.add_claim_topic st t).isOk = true ∧
      ClaimTopics.is_claim_topic_valid
        (ClaimTopics.applyExec st (ClaimTopics.add_claim_topic st t)) t = true) ∧
    (ClaimTopics.hasTopic st t = true →
      ClaimTopics.add_claim_topic st t =
        Except.error ClaimTopics.ContractError.claimTopicsExists) ∧
    (ClaimTopics.hasTopic st t = true →
      (ClaimTopics.remove_claim_topic st t).isOk = true ∧
      ClaimTopics.is_claim_topic_valid
        (ClaimTopics.applyExec st (ClaimTopics.remove_claim_topic st t)) t = false) ∧
    (ClaimTopics.hasTopic st t = false →
      ClaimTopics.remove_claim_topic st t =
        Except.error ClaimTopics.ContractError.claimTopicsNotFound) := by
  refine ⟨?_, ?_, ?_, ?_⟩
  · intro h
    simp [ClaimTopics.hasTopic] at h
    constructor
    · simp [ClaimTopics.add_claim_topic, ClaimTopics.hasTopic, h,
        Except.isOk, Except.toBool]
    · simp [ClaimTopics.add_claim_topic, ClaimTopics.hasTopic, h,
        ClaimTopics.applyExec, ClaimTopics.is_claim_topic_valid]
  · intro h
    simp [ClaimTopics.hasTopic] at h
    simp [ClaimTopics.add_claim_topic, ClaimTopics.hasTopic, h]
  · intro h
    simp [ClaimTopics.hasTopic] at h
    constructor
    · simp [ClaimTopics.remove_claim_topic, ClaimTopics.hasTopic, h,
        Except.isOk, Except.toBool]
    · simp [ClaimTopics.remove_claim_topic, ClaimTopics.hasTopic, h,
        ClaimTopics.applyExec, ClaimTopics.is_claim_topic_valid, List.mem_filter]
  · intro h
    simp [ClaimTopics.hasTopic] at h
    simp [ClaimTopics.remove_claim_topic, ClaimTopics.hasTopic, h]

theorem claim_C6_witness :
    ClaimTopics.is_claim_topic_valid
      (ClaimTopics.applyExec topicsState5 (ClaimTopics.add_claim_topic topicsState5 9)) 9 =
        true ∧
    ClaimTopics.add_claim_topic topicsState5 5 =
      Except.error ClaimTopics.ContractError.claimTopicsExists ∧
    ClaimTopics.is_claim_topic_valid
      (ClaimTopics.applyExec topicsState5 (ClaimTopics.remove_claim_topic topicsState5 5)) 5 =
        false ∧
    ClaimTopics.remove_claim_topic topicsState5 9 =
      Except.error ClaimTopics.ContractError.claimTopicsNotFound :=
  ⟨((claim_C6 topicsState5 9).1 rfl).2,
   (claim_C6 topicsState5 5).2.1 rfl,
   ((claim_C6 topicsState5 5).2.2.1 rfl).2,
   (claim_C6 topicsState5 9).2.2.2 rfl⟩

/-- C7: for an authorized caller, `remove_claim` retains exactly the claims
whose `id` differs from `claim_id`, and removing an absent id is a silent
no-op rather than an error. -/
theorem claim_C7 (s : Storage) (info : MessageInfo) (cid : String) (idn : Identity)
    (hk : holds_key s info.sender KeyType.managementKey = true)
    (hs : s info.sender = some idn) :
    remove_claim s info cid =
      Except.ok (saveIdentity s info.sender
        { idn with claims := idn.claims.filter (fun c => c.id != some cid) },
        [("method", "remove_claim"), ("claim_id", cid)]) ∧
    claimsOf (applyResult s (remove_claim s info cid)) info.sender =
      idn.claims.filter (fun c => c.id != some cid) ∧
    (idn.claims.any (fun c => c.id == some cid) = false →
      claimsOf (applyResult s (remove_claim s info cid)) info.sender = idn.claims) := by
  have hc := check_key_authorization_eq_ok hk
  have h1 : remove_claim s info cid =
      Except.ok (saveIdentity s info.sender
        { idn with claims := idn.claims.filter (fun c => c.id != some cid) },
        [("method", "remove_claim"), ("claim_id", cid)]) := by
    simp [remove_claim, loadIdentity, hs, hc]
  have h2 : claimsOf (applyResult s (remove_claim s info cid)) info.sender =
      idn.claims.filter (fun c => c.id != some cid) := by
    rw [h1]
    simp [applyResult, claimsOf, saveIdentity]
  refine ⟨h1, h2, ?_⟩
  intro habs
  rw [h2]
  apply List.filter_eq_self.mpr
  intro c hcmem
  simp only [List.any_eq_false] at habs
  simpa using habs c hcmem

theorem claim_C7_witness :
    (remove_claim aliceStorage ⟨"alice"⟩ "absent-id").isOk = true ∧
    claimsOf (applyResult aliceStorage (remove_claim aliceStorage ⟨"alice"⟩ "absent-id"))
      "alice" = aliceIdentity.claims :=
  ⟨by rw [(claim_C7 aliceStorage ⟨"alice"⟩ "absent-id" aliceIdentity rfl rfl).1]; rfl,
   (claim_C7 aliceStorage ⟨"alice"⟩ "absent-id" aliceIdentity rfl rfl).2.2 rfl⟩

theorem firstTopicMatch_eq_any (l : List Claim) (t : ClaimTopic) :
    firstTopicMatch l t = l.any (fun c => c.topic == t) := by
  induction l with
  | nil => rfl
  | cons c rest ih =>
    unfold firstTopicMatch
    cases h : c.topic == t <;> simp [h, ih]

/-- C8: the claim-topic verification queries are pure reads answering `true`
exactly when some stored claim on the identity carries the queried topic,
with no signature re-validation — in both the `IDENTITY`-map variant
(`claim_management.rs`) and the `CLAIMS`-map variant (`contract.rs`). -/
theorem claim_C8 (s : Storage) (a : Addr) (t : ClaimTopic) (idn : Identity)
    (cs : IdQuery.ClaimsStorage) (l : List StateClaim)
    (h1 : s a = some idn) (h2 : cs a = some l) :
    verify_claim s a t = Except.ok (idn.claims.any (fun c => c.topic == t)) ∧
    (verify_claim s a t = Except.ok true ↔ ∃ c ∈ idn.claims, c.topic = t) ∧
    IdQuery.verify_claim cs t a = Except.ok (l.any (fun c => c.topic == t)) ∧
    (IdQuery.verify_claim cs t a = Except.ok true ↔ ∃ c ∈ l, c.topic = t) := by
  have e1 : verify_claim s a t = Except.ok (idn.claims.any (fun c => c.topic == t)) := by
    simp [verify_claim, loadIdentity, h1, firstTopicMatch_eq_any]
  have e2 : IdQuery.verify_claim cs t a = Except.ok (l.any (fun c => c.topic == t)) := by
    simp [IdQuery.verify_claim, h2]
  refine ⟨e1, ?_, e2, ?_⟩
  · rw [e1]
    simp
  · rw [e2]
    simp

theorem holds_key_of_check_ok {s : Storage} {a : Addr} {kt : KeyType}
    (h : check_key_authorization s a kt = Except.ok ()) :
    holds_key s a kt = true := by
  cases hk : holds_key s a kt with
  | true => rfl
  | false => rw [check_key_authorization_eq_error hk] at h; simp at h

theorem add_claim_ok_elim {s : Storage} {api : Secp256k1Verify} {info : MessageInfo}
    {c : Claim} {sig : List Nat} {s' : Storage} {r : Response}
    (h : add_claim s api info c sig = Except.ok (s', r)) :
    ∃ idn, s info.sender = some idn ∧
      idn.keys.any (fun k => k.owner == info.sender &&
        k.key_type == KeyType.managementKey) = true ∧
      verify_claim_signature s api c sig = Except.ok () ∧
      idn.claims.any (fun cl => cl.id == (generate_claim_id c).id) = false ∧
      s' = saveIdentity s info.sender
        { idn with claims := idn.claims ++ [generate_claim_id c] } := by
  unfold add_claim at h
  cases hch : check_key_authorization s info.sender KeyType.managementKey with
  | error e => rw [hch] at h; simp at h
  | ok u =>
    rw [hch] at h
    cases hver : verify_claim_signature s api c sig with
    | error e => rw [hver] at h; simp at h
    | ok v =>
      rw [hver] at h
      cases hsa : s info.sender with
      | none =>
        simp only [loadIdentity, hsa] at h
        exact Except.noConfusion h
      | some idn =>
        simp only [loadIdentity, hsa] at h
        cases hdup : idn.claims.any (fun cl => cl.id == (generate_claim_id c).id) with
        | true =>
          rw [hdup] at h
          exact Except.noConfusion h
        | false =>
          rw [hdup] at h
          simp at h
          have hmk : holds_key s info.sender KeyType.managementKey = true :=
            holds_key_of_check_ok (by cases u; exact hch)
          unfold holds_key at hmk
          rw [hsa] at hmk
          exact ⟨idn, rfl, hmk, by cases v; rfl, hdup, h.1.symm⟩

theorem remove_claim_ok_elim {s : Storage} {info : MessageInfo} {cid : String}
    {s' : Storage} {r : Response}
    (h : remove_claim s info cid = Except.ok (s', r)) :
    ∃ idn, s info.sender = some idn ∧
      s' = saveIdentity s info.sender
        { idn with claims := idn.claims.filter (fun c => c.id != some cid) } := by
  unfold remove_claim at h
  cases hch : check_key_authorization s info.sender KeyType.managementKey with
  | error e => rw [hch] at h; simp at h
  | ok u =>
    rw [hch] at h
    cases hsa : s info.sender with
    | none =>
      simp only [loadIdentity, hsa] at h
      exact Except.noConfusion h
    | some idn =>
      simp only [loadIdentity, hsa, Except.ok.injEq, Prod.mk.injEq] at h
      exact ⟨idn, rfl, h.1.symm⟩

theorem execute_add_key_ok_elim {s : Storage} {info : MessageInfo} {ko : Addr}
    {kt : KeyType} {s' : Storage} {r : Response}
    (h : execute_add_key s info ko kt = Except.ok (s', r)) :
    ∃ idn, s info.sender = some idn ∧
      s' = saveIdentity s info.sender
        { idn with keys := idn.keys ++ [⟨ko, kt⟩] } := by
  unfold execute_add_key at h
  cases hch : check_key_authorization s info.sender KeyType.managementKey with
  | error e => rw [hch] at h; simp at h
  | ok u =>
    rw [hch] at h
    cases hsa : s info.sender with
    | none =>
      simp only [loadIdentity, hsa] at h
      exact Except.noConfusion h
    | some idn =>
      simp only [loadIdentity, hsa] at h
      cases hdup : idn.keys.any (fun k => k.owner == ko && k.key_type == kt) with
      | true =>
        rw [hdup] at h
        exact Except.noConfusion h
      | false =>
        rw [hdup] at h
        simp at h
        exact ⟨idn, rfl, h.1.symm⟩

theorem execute_remove_key_ok_elim {s : Storage} {info : MessageInfo} {ko : Addr}
    {kt : KeyType} {s' : Storage} {r : Response}
    (h : execute_remove_key s info ko kt = Except.ok (s', r)) :
    ∃ idn, s info.sender = some idn ∧
      s' = saveIdentity s info.sender
        { idn with keys :=
            idn.keys.filter (fun k => !(k.owner == ko && k.key_type == kt)) } := by
  unfold execute_remove_key at h
  cases hch : check_key_authorization s info.sender KeyType.managementKey with
  | error e => rw [hch] at h; simp at h
  | ok u =>
    rw [hch] at h
    cases hsa : s info.sender with
    | none =>
      simp only [loadIdentity, hsa] at h
      exact Except.noConfusion h
    | some idn =>
      simp only [loadIdentity, hsa, Except.ok.injEq, Prod.mk.injEq] at h
      exact ⟨idn, rfl, h.1.symm⟩

theorem add_claim_eq_dup {s : Storage} {api : Secp256k1Verify} {info : MessageInfo}
    {c : Claim} {sig : List Nat} {idn : Identity}
    (hk : holds_key s info.sender KeyType.managementKey = true)
    (hver : verify_claim_signature s api c sig = Except.ok ())
    (hsa : s info.sender = some idn)
    (hdup : idn.claims.any (fun cl => cl.id == (generate_claim_id c).id) = true) :
    add_claim s api info c sig = Except.error ContractError.claimAlreadyExists := by
  unfold add_claim
  rw [check_key_authorization_eq_ok hk, hver]
  simp only [loadIdentity, hsa]
  rw [hdup]
  simp

theorem claim_C8_witness :
    verify_claim carolStorage "carol" 5 = Except.ok true ∧
    verify_claim carolStorage "carol" 7 = Except.ok false ∧
    IdQuery.verify_claim carolClaims 5 "carol" = Except.ok true :=
  ⟨(claim_C8 carolStorage "carol" 5 carolIdentity carolClaims
      [⟨5, "issuer1", [], [], ""⟩] rfl rfl).1,
   (claim_C8 carolStorage "carol" 7 carolIdentity carolClaims
      [⟨5, "issuer1", [], [], ""⟩] rfl rfl).1,
   (claim_C8 carolStorage "carol" 5 carolIdentity carolClaims
      [⟨5, "issuer1", [], [], ""⟩] rfl rfl).2.2.1⟩

/-- C4 (amended): if adding a claim succeeded and a second claim agrees with
it on `(topic, issuer, signature, data, uri)`, then — provided the second
`add_claim` call also passes issuer-signature verification, as a byte-identical
resubmission does — the second call fails with `ClaimAlreadyExists` and leaves
the identity's claim list unchanged. -/
theorem claim_C4 (s s' : Storage) (api : Secp256k1Verify) (info : MessageInfo)
    (c1 c2 : Claim) (sig1 sig2 : List Nat) (r : Response)
    (h1 : add_claim s api info c1 sig1 = Except.ok (s', r))
    (ht : c1.topic = c2.topic) (hi : c1.issuer = c2.issuer)
    (hsg : c1.signature = c2.signature) (hd : c1.data = c2.data)
    (hu : c1.uri = c2.uri)
    (h2 : verify_claim_signature s' api c2 sig2 = Except.ok ()) :
    add_claim s' api info c2 sig2 = Except.error ContractError.claimAlreadyExists ∧
    applyResult s' (add_claim s' api info c2 sig2) = s' := by
  obtain ⟨idn, hsa, hany, hver1, hdup, hs'⟩ := add_claim_ok_elim h1
  have hsa' : s' info.sender =
      some { idn with claims := idn.claims ++ [generate_claim_id c1] } := by
    rw [hs']
    simp [saveIdentity]
  have hk' : holds_key s' info.sender KeyType.managementKey = true := by
    unfold holds_key
    rw [hsa']
    exact hany
  have hid : (generate_claim_id c2).id = (generate_claim_id c1).id := by
    rw [generate_claim_id_spec, generate_claim_id_spec]
    simp [claimContentId_congr ht hi hsg hd hu]
  have hdup2 : ({ idn with claims := idn.claims ++ [generate_claim_id c1] }).claims.any
      (fun cl => cl.id == (generate_claim_id c2).id) = true := by
    simp [hid]
  have hmain := add_claim_eq_dup hk' h2 hsa' hdup2
  exact ⟨hmain, by rw [hmain]; rfl⟩

theorem claim_C4_witness :
    add_claim w4s anyApi ⟨"alice"⟩ w4Claim [6] =
      Except.error ContractError.claimAlreadyExists :=
  (claim_C4 aliceStorage w4s anyApi ⟨"alice"⟩ w4Claim w4Claim [6] [6] w4r
    rfl rfl rfl rfl rfl rfl rfl).1

set_option maxRecDepth 100000 in
/-- C4 counterexample: the claim as stated is false.  The two claims agree on
all five content fields, the first `add_claim` succeeds, yet the second fails
with `InvalidIssuerSignature` — not `ClaimAlreadyExists` — because the digest
that is signature-checked covers the caller-supplied `id` field as well. -/
theorem claim_C4_cex :
    (cexClaim2.topic = cexClaim1.topic ∧ cexClaim2.issuer = cexClaim1.issuer ∧
     cexClaim2.signature = cexClaim1.signature ∧ cexClaim2.data = cexClaim1.data ∧
     cexClaim2.uri = cexClaim1.uri) ∧
    (add_claim cexStorage cexApi ⟨"a"⟩ cexClaim1 [1]).isOk = true ∧
    add_claim (applyResult cexStorage (add_claim cexStorage cexApi ⟨"a"⟩ cexClaim1 [1]))
        cexApi ⟨"a"⟩ cexClaim2 [1] =
      Except.error ContractError.invalidIssuerSignature :=
  ⟨⟨rfl, rfl, rfl, rfl, rfl⟩, rfl, rfl⟩

/-- C9: `add_claim` and `remove_claim` mutate only the identity record stored
under the caller's own address `info.sender` (there is no separate
subject-identity parameter), while the signature check reads only the issuer's
record. -/
theorem claim_C9 (s : Storage) (api : Secp256k1Verify) (info : MessageInfo)
    (c : Claim) (sig : List Nat) (cid : String) (s' s'' : Storage) (r r' : Response) :
    (add_claim s api info c sig = Except.ok (s', r) →
      (∀ a, a ≠ info.sender → s' a = s a) ∧
      claimsOf s' info.sender = claimsOf s info.sender ++ [generate_claim_id c]) ∧
    (remove_claim s info cid = Except.ok (s'', r') →
      (∀ a, a ≠ info.sender → s'' a = s a) ∧
      claimsOf s'' info.sender =
        (claimsOf s info.sender).filter (fun cl => cl.id != some cid)) ∧
    (∀ s2 : Storage, s2 c.issuer = s c.issuer →
      verify_claim_signature s2 api c sig = verify_claim_signature s api c sig) := by
  refine ⟨?_, ?_, ?_⟩
  · intro h1
    obtain ⟨idn, hsa, _, _, _, hs'⟩ := add_claim_ok_elim h1
    constructor
    · intro a ha
      rw [hs']
      simp [saveIdentity, ha]
    · rw [hs']
      simp [claimsOf, saveIdentity, hsa]
  · intro h2
    obtain ⟨idn, hsa, hs''⟩ := remove_claim_ok_elim h2
    constructor
    · intro a ha
      rw [hs'']
      simp [saveIdentity, ha]
    · rw [hs'']
      simp [claimsOf, saveIdentity, hsa]
  · intro s2 hiss
    unfold verify_claim_signature loadIdentity
    rw [hiss]

theorem claim_C9_witness :
    w4s "bob" = aliceStorage "bob" ∧
    claimsOf w4s "alice" = claimsOf aliceStorage "alice" ++ [generate_claim_id w4Claim] :=
  ⟨(((claim_C9 aliceStorage anyApi ⟨"alice"⟩ w4Claim [6] "x" w4s w4s w4r w4r).1
      rfl).1 "bob" (by decide)),
   ((claim_C9 aliceStorage anyApi ⟨"alice"⟩ w4Claim [6] "x" w4s w4s w4r w4r).1
      rfl).2⟩

/-- C10: every claim a successful `add_claim` stores has its `id` equal to
`Some` of the derived content hash of its own fields — `generate_claim_id`
assigns it before the duplicate check and insertion — and this invariant is
preserved by every mutating operation of the identity store. -/
theorem claim_C10 (s : Storage) (api : Secp256k1Verify) (info : MessageInfo)
    (c : Claim) (sig : List Nat) (cid : String) (ko : Addr) (kt : KeyType)
    (h : goodStorage s) :
    goodStorage (applyResult s (add_claim s api info c sig)) ∧
    goodStorage (applyResult s (remove_claim s info cid)) ∧
    goodStorage (applyResult s (execute_add_key s info ko kt)) ∧
    goodStorage (applyResult s (execute_remove_key s info ko kt)) := by
  refine ⟨?_, ?_, ?_, ?_⟩
  · cases hr : add_claim s api info c sig with
    | error e => simpa [applyResult] using h
    | ok p =>
      obtain ⟨s', r⟩ := p
      obtain ⟨idn, hsa, _, _, _, hs'⟩ := add_claim_ok_elim hr
      simp only [applyResult]
      rw [hs']
      intro a idn' ha cl hcl
      by_cases hae : a = info.sender
      · subst hae
        simp [saveIdentity] at ha
        subst ha
        simp only [List.mem_append, List.mem_singleton] at hcl
        rcases hcl with hmem | hnew
        · exact h info.sender idn hsa cl hmem
        · subst hnew
          rw [generate_claim_id_spec]
          have : claimContentId { c with id := some (claimContentId c) } =
              claimContentId c :=
            claimContentId_congr rfl rfl rfl rfl rfl
          simp [this]
      · simp [saveIdentity, hae] at ha
        exact h a idn' ha cl hcl
  · cases hr : remove_claim s info cid with
    | error e => simpa [applyResult] using h
    | ok p =>
      obtain ⟨s'', r'⟩ := p
      obtain ⟨idn, hsa, hs''⟩ := remove_claim_ok_elim hr
      simp only [applyResult]
      rw [hs'']
      intro a idn' ha cl hcl
      by_cases hae : a = info.sender
      · subst hae
        simp [saveIdentity] at ha
        subst ha
        simp only [List.mem_filter] at hcl
        exact h info.sender idn hsa cl hcl.1
      · simp [saveIdentity, hae] at ha
        exact h a idn' ha cl hcl
  · cases hr : execute_add_key s info ko kt with
    | error e => simpa [applyResult] using h
    | ok p =>
      obtain ⟨s', r⟩ := p
      obtain ⟨idn, hsa, hs'⟩ := execute_add_key_ok_elim hr
      simp only [applyResult]
      rw [hs']
      intro a idn' ha cl hcl
      by_cases hae : a = info.sender
      · subst hae
        simp [saveIdentity] at ha
        subst ha
        exact h info.sender idn hsa cl hcl
      · simp [saveIdentity, hae] at ha
        exact h a idn' ha cl hcl
  · cases hr : execute_remove_key s info ko kt with
    | error e => simpa [applyResult] using h
    | ok p =>
      obtain ⟨s', r⟩ := p
      obtain ⟨idn, hsa, hs'⟩ := execute_remove_key_ok_elim hr
      simp only [applyResult]
      rw [hs']
      intro a idn' ha cl hcl
      by_cases hae : a = info.sender
      · subst hae
        simp [saveIdentity] at ha
        subst ha
        exact h info.sender idn hsa cl hcl
      · simp [saveIdentity, hae] at ha
        exact h a idn' ha cl hcl

theorem goodStorage_aliceStorage : goodStorage aliceStorage := by
  intro a idn ha cl hcl
  by_cases hae : a = "alice"
  · subst hae
    simp [aliceStorage] at ha
    rw [← ha] at hcl
    simp [aliceIdentity] at hcl
  · simp [aliceStorage, hae] at ha

theorem claim_C10_witness :
    goodStorage (applyResult aliceStorage
      (add_claim aliceStorage anyApi ⟨"alice"⟩ w4Claim [6])) :=
  (claim_C10 aliceStorage anyApi ⟨"alice"⟩ w4Claim [6] "x" "bob" KeyType.executionKey
    goodStorage_aliceStorage).1

end RWA
